import Mathlib

/-!
Shallow embedding of the snake-game core (entities, board, score manager,
game engine) together with theorems checking the specification claims.
Each definition is translated from the TypeScript source under src/:
`Position` and `Snake` from the entities, `GameBoard` helpers, `Food`,
`ScoreManager`, and `GameEngine`. Randomness (Math.random draws) is made
explicit as parameters: an index draw is modelled as an arbitrary natural
number reduced modulo the list length (the source computes
floor(random() * length), always in [0, length)), and the bonus-type draw
as a boolean parameter. Wall-clock reads (performance.now) are passed in
as an explicit `now` argument. Event emission is modelled as an appended
list of event kinds; payloads are omitted.
-/

namespace SnakeGame

/-- Immutable integer pair (column, row); translated from the Position
entity class. -/
structure Position where
  x : Int
  y : Int
deriving DecidableEq, Repr, Inhabited

/-- Offset addition from Position.add. -/
def Position.add (p offset : Position) : Position :=
  { x := p.x + offset.x, y := p.y + offset.y }

/-- Movement direction enumeration. -/
inductive Direction
  | UP
  | DOWN
  | LEFT
  | RIGHT
deriving DecidableEq, Repr, Inhabited

/-- The opposites table inside Snake.isOppositeDirection. -/
def Direction.opposite : Direction → Direction
  | .UP => .DOWN
  | .DOWN => .UP
  | .LEFT => .RIGHT
  | .RIGHT => .LEFT

/-- Unit cell offset for a direction as the spec states it:
Up = (0,-1), Down = (0,+1), Left = (-1,0), Right = (+1,0). -/
def Direction.unitOffset : Direction → Position
  | .UP => { x := 0, y := -1 }
  | .DOWN => { x := 0, y := 1 }
  | .LEFT => { x := -1, y := 0 }
  | .RIGHT => { x := 1, y := 0 }

/-- The configuration fields the core logic reads (gridSize,
initialSnakeLength); rendering-only fields (colors, speeds, spawn
chance) are omitted, the spawn-chance draw being modelled as an explicit
boolean parameter where it is used. -/
structure GameConfig where
  gridSize : Nat
  initialSnakeLength : Nat
deriving DecidableEq, Repr

/-- One snake segment: a position plus the head flag. -/
structure SnakeSegment where
  position : Position
  isHead : Bool
deriving DecidableEq, Repr, Inhabited

/-- Snake state: configuration, ordered segments (head first), current
direction and the pending (next) direction. -/
structure Snake where
  config : GameConfig
  segments : List SnakeSegment
  direction : Direction
  nextDirection : Direction
deriving DecidableEq, Repr

/-- Translated from Snake.initializeSnake: segments at
(centerX - i, centerY) for i = 0 .. initialSnakeLength - 1, the head
flag set exactly on i = 0. -/
def initialSegments (config : GameConfig) : List SnakeSegment :=
  let centerX : Int := (config.gridSize / 2 : Nat)
  let centerY : Int := (config.gridSize / 2 : Nat)
  (List.range config.initialSnakeLength).map fun (i : Nat) =>
    { position := { x := centerX - (i : Int), y := centerY }, isHead := i == 0 }

/-- The Snake constructor: initial segments, both directions RIGHT. -/
def mkSnake (config : GameConfig) : Snake :=
  { config := config
    segments := initialSegments config
    direction := .RIGHT
    nextDirection := .RIGHT }

/-- Translated from Snake.calculateNewHeadPosition; the direction
argument is the (already updated) current direction. -/
def calculateNewHeadPosition (direction : Direction) (currentPosition : Position) : Position :=
  match direction with
  | .UP => { x := currentPosition.x, y := currentPosition.y - 1 }
  | .DOWN => { x := currentPosition.x, y := currentPosition.y + 1 }
  | .LEFT => { x := currentPosition.x - 1, y := currentPosition.y }
  | .RIGHT => { x := currentPosition.x + 1, y := currentPosition.y }

/-- Translated from Snake.move: apply the pending direction, unshift the
new head, pop the tail, then clear the head flag on index 1 when more
than one segment remains. The source indexes segments[0] and so assumes
at least one segment (the length-ge-one invariant); the empty case is
modelled as the identity. -/
def Snake.move (s : Snake) : Snake :=
  match s.segments with
  | [] => s
  | head :: rest =>
    let dir := s.nextDirection
    let newHead : SnakeSegment :=
      { position := calculateNewHeadPosition dir head.position, isHead := true }
    let afterMove := newHead :: (head :: rest).dropLast
    let segs :=
      if 1 < afterMove.length then
        match afterMove with
        | a :: b :: t => a :: { b with isHead := false } :: t
        | l => l
      else afterMove
    { s with direction := dir, segments := segs }

/-- Translated from Snake.isOppositeDirection: compares the request
against the opposite of the current (not pending) direction. -/
def Snake.isOppositeDirection (s : Snake) (direction : Direction) : Bool :=
  s.direction.opposite == direction

/-- Translated from Snake.changeDirection: drop a request opposite to
the current direction, otherwise store it as the pending direction. -/
def Snake.changeDirection (s : Snake) (newDirection : Direction) : Snake :=
  if s.isOppositeDirection newDirection then s
  else { s with nextDirection := newDirection }

/-- Translated from Snake.grow: append a copy of the current tail
position as a non-head segment. The source reads
segments[length - 1], assuming at least one segment; the empty case is
modelled as the identity. -/
def Snake.grow (s : Snake) : Snake :=
  match s.segments.getLast? with
  | none => s
  | some tail =>
    { s with segments := s.segments ++ [{ position := tail.position, isHead := false }] }

/-- Translated from Snake.hasSelfCollision: does any segment after the
head share the head position (the some-callback never runs on an empty
slice, so the empty case is false). -/
def Snake.hasSelfCollision (s : Snake) : Bool :=
  match s.segments with
  | [] => false
  | head :: rest => rest.any fun segment => segment.position == head.position

/-- Translated from Snake.getHeadPosition (source assumes a nonempty
segment list; the default value covers the unreachable empty case). -/
def Snake.getHeadPosition (s : Snake) : Position :=
  (s.segments.headD default).position

/-- Translated from Snake.getLength. -/
def Snake.getLength (s : Snake) : Nat :=
  s.segments.length

/-- Translated from Snake.reset: both directions back to RIGHT and the
segments reinitialized. -/
def Snake.reset (s : Snake) : Snake :=
  { s with direction := .RIGHT, nextDirection := .RIGHT, segments := initialSegments s.config }

/-- Translated from Snake.containsPosition. -/
def Snake.containsPosition (s : Snake) (position : Position) : Bool :=
  s.segments.any fun segment => segment.position == position

/-- Translated from GameBoard.isOutOfBounds; the board carries only its
grid size, passed here as a plain argument. -/
def isOutOfBounds (gridSize : Nat) (position : Position) : Bool :=
  decide (position.x < 0) || decide ((gridSize : Int) ≤ position.x) ||
    decide (position.y < 0) || decide ((gridSize : Int) ≤ position.y)

/-- Translated from GameBoard.getEmptyPositionsExcludingSnake: the outer
loop runs over x, the inner loop over y, pushing each (x, y) cell whose
coordinate key is absent from the snake-position set. The string-keyed
set membership of the source is integer coordinate equality, modelled as
list membership of positions. -/
def getEmptyPositionsExcludingSnake (gridSize : Nat) (snakeSegments : List SnakeSegment) :
    List Position :=
  (List.range gridSize).flatMap fun (x : Nat) =>
    (List.range gridSize).filterMap fun (y : Nat) =>
      if ({ x := (x : Int), y := (y : Int) } : Position) ∈ snakeSegments.map (·.position) then
        none
      else some { x := (x : Int), y := (y : Int) }

/-- Food type enumeration. -/
inductive FoodType
  | REGULAR
  | SPECIAL
deriving DecidableEq, Repr, Inhabited

/-- Translated from Food.calculatePoints. -/
def calculatePoints : FoodType → Int
  | .REGULAR => 10
  | .SPECIAL => 25

/-- Food state: position, type and the derived point value. -/
structure Food where
  position : Position
  foodType : FoodType
  points : Int
deriving DecidableEq, Repr

/-- The Food constructor: the point value is derived from the type. -/
def mkFood (position : Position) (foodType : FoodType) : Food :=
  { position := position, foodType := foodType, points := calculatePoints foodType }

/-- Translated from Food.createRandomFood; the boolean argument is the
outcome of the draw random() < specialFoodSpawnChance. -/
def createRandomFood (special : Bool) (position : Position) : Food :=
  mkFood position (if special then .SPECIAL else .REGULAR)

/-- Translated from Food.respawn: throws when no position is available,
otherwise moves the food to a randomly indexed element of the list. The
random draw floor(random() * length), always within [0, length), is
modelled as an arbitrary natural reduced modulo the length. -/
def Food.respawn (food : Food) (availablePositions : List Position) (randomIndex : Nat) :
    Except String Food :=
  if availablePositions.length = 0 then
    .error "No available positions for food spawn"
  else
    .ok { food with
          position := availablePositions.getD (randomIndex % availablePositions.length) default }

/-- Score-manager state, translated from the ScoreManager fields; the
storage collaborator is modelled by the savedHighScore cell that
saveHighScore writes. -/
structure ScoreManager where
  currentScore : Int
  highScore : Int
  snakeLength : Nat
  foodEaten : Nat
  gameTime : Int
  gameStartTime : Int
  savedHighScore : Option Int
deriving DecidableEq, Repr

/-- Translated from ScoreManager.updateHighScore. -/
def ScoreManager.updateHighScore (m : ScoreManager) : ScoreManager :=
  if m.highScore < m.currentScore then { m with highScore := m.currentScore } else m

/-- Translated from ScoreManager.addPoints: add, then raise the high
score when exceeded. -/
def ScoreManager.addPoints (m : ScoreManager) (points : Int) : ScoreManager :=
  ScoreManager.updateHighScore { m with currentScore := m.currentScore + points }

/-- Translated from ScoreManager.resetScore: zero the current score,
food counter and timers, restore the initial snake length 3; the high
score is untouched. -/
def ScoreManager.resetScore (m : ScoreManager) : ScoreManager :=
  { m with currentScore := 0, snakeLength := 3, foodEaten := 0, gameTime := 0,
           gameStartTime := 0 }

/-- Translated from ScoreManager.incrementFoodEaten. -/
def ScoreManager.incrementFoodEaten (m : ScoreManager) : ScoreManager :=
  { m with foodEaten := m.foodEaten + 1 }

/-- Translated from ScoreManager.updateSnakeLength. -/
def ScoreManager.updateSnakeLength (m : ScoreManager) (length : Nat) : ScoreManager :=
  { m with snakeLength := length }

/-- Translated from ScoreManager.updateTimer; performance.now() is the
explicit now argument, and Math.floor of the division by 1000 is
floor-division on integers. -/
def ScoreManager.updateTimer (m : ScoreManager) (now : Int) : ScoreManager :=
  if 0 < m.gameStartTime then { m with gameTime := (now - m.gameStartTime).fdiv 1000 } else m

/-- Translated from ScoreManager.saveHighScore: persist the high score
through the storage collaborator. -/
def ScoreManager.saveHighScore (m : ScoreManager) : ScoreManager :=
  { m with savedHighScore := some m.highScore }

/-- Translated from ScoreManager.startGameTimer. -/
def ScoreManager.startGameTimer (m : ScoreManager) (now : Int) : ScoreManager :=
  { m with gameStartTime := now }

/-- Engine state enumeration. -/
inductive GameState
  | MENU
  | PLAYING
  | PAUSED
  | GAME_OVER
deriving DecidableEq, Repr

/-- Kinds of events the engine emits; payloads are omitted. -/
inductive GameEvent
  | gameStart
  | gamePause
  | gameResume
  | gameReset
  | gameOverEvt
  | snakeMove
  | foodEatenEvt
  | foodSpawn
  | scoreUpdate
  | directionChange
deriving DecidableEq, Repr

/-- Engine state, translated from the GameEngine fields; the game board
is its grid size, the event emitter is the accumulated list of emitted
event kinds. -/
structure GameEngine where
  config : GameConfig
  snake : Snake
  food : Food
  gridSize : Nat
  scoreManager : ScoreManager
  gameState : GameState
  lastUpdateTime : Int
  animationFrameId : Option Nat
  events : List GameEvent
deriving DecidableEq, Repr

/-- Append one emitted event kind (eventEmitter.emit). -/
def GameEngine.emit (e : GameEngine) (event : GameEvent) : GameEngine :=
  { e with events := e.events ++ [event] }

/-- Translated from GameEngine.pause: only from PLAYING; otherwise an
early return with nothing emitted. -/
def GameEngine.pause (e : GameEngine) : GameEngine :=
  if e.gameState ≠ GameState.PLAYING then e
  else GameEngine.emit { e with gameState := GameState.PAUSED } .gamePause

/-- Translated from GameEngine.stop: force the MENU state and cancel
any scheduled animation frame; nothing else is touched and nothing is
emitted. -/
def GameEngine.stop (e : GameEngine) : GameEngine :=
  { e with gameState := GameState.MENU, animationFrameId := none }

/-- Translated from GameEngine.gameOver: GAME_OVER state, high score
persisted, animation frame cancelled, game-over event emitted. -/
def GameEngine.gameOver (e : GameEngine) : GameEngine :=
  GameEngine.emit
    { e with gameState := GameState.GAME_OVER,
             scoreManager := e.scoreManager.saveHighScore,
             animationFrameId := none }
    .gameOverEvt

/-- Translated from GameEngine.checkCollisions: wall or self collision
of the head triggers gameOver. -/
def GameEngine.checkCollisions (e : GameEngine) : GameEngine :=
  if isOutOfBounds e.gridSize e.snake.getHeadPosition || e.snake.hasSelfCollision then
    e.gameOver
  else e

/-- Translated from GameEngine.spawnNewFood: with no empty position the
board is full and the game ends; otherwise the food becomes a random
food at a randomly indexed empty position and a spawn event is emitted.
The two random draws are the explicit randomIndex and special
arguments. -/
def GameEngine.spawnNewFood (e : GameEngine) (randomIndex : Nat) (special : Bool) : GameEngine :=
  let emptyPositions := getEmptyPositionsExcludingSnake e.gridSize e.snake.segments
  if emptyPositions.length = 0 then
    e.gameOver
  else
    GameEngine.emit
      { e with food := createRandomFood special
                 (emptyPositions.getD (randomIndex % emptyPositions.length) default) }
      .foodSpawn

/-- Translated from GameEngine.checkFoodConsumption: when the head sits
on the food, grow the snake, award the food points, bump the
food-eaten counter, record the new length, emit the eaten event and
spawn new food; otherwise nothing. -/
def GameEngine.checkFoodConsumption (e : GameEngine) (randomIndex : Nat) (special : Bool) :
    GameEngine :=
  if e.snake.getHeadPosition == e.food.position then
    let snake1 := e.snake.grow
    let sm1 := ((e.scoreManager.addPoints e.food.points).incrementFoodEaten).updateSnakeLength
      snake1.getLength
    GameEngine.spawnNewFood
      (GameEngine.emit { e with snake := snake1, scoreManager := sm1 } .foodEatenEvt)
      randomIndex special
  else e

/-- Translated from GameEngine.updateScore: refresh the timer and the
recorded snake length, emit a score update. -/
def GameEngine.updateScore (e : GameEngine) (now : Int) : GameEngine :=
  GameEngine.emit
    { e with scoreManager := (e.scoreManager.updateTimer now).updateSnakeLength
               e.snake.getLength }
    .scoreUpdate

/-- Translated from GameEngine.update: only while PLAYING; move the
snake, check collisions, check food consumption, update the score, emit
the move event. The deltaTime parameter of the source is unused by its
body and omitted; now feeds the timer read, randomIndex and special the
food-spawn draws. -/
def GameEngine.update (e : GameEngine) (now : Int) (randomIndex : Nat) (special : Bool) :
    GameEngine :=
  if e.gameState ≠ GameState.PLAYING then e
  else
    GameEngine.emit
      (GameEngine.updateScore
        (GameEngine.checkFoodConsumption
          (GameEngine.checkCollisions { e with snake := e.snake.move })
          randomIndex special)
        now)
      .snakeMove

/-- Strict column-major (x-outer) lexicographic order on positions: the
order in which getEmptyPositionsExcludingSnake emits cells. -/
def posColLex (p q : Position) : Prop :=
  p.x < q.x ∨ (p.x = q.x ∧ p.y < q.y)

/-- Modelled from the spec: the free cells of the grid listed in
row-major order, i.e. row by row (row index y outer, column index x
inner), each cell kept when its position is not occupied. Written from
the spec words only, to compare the specified order with the
implemented one. -/
def rowMajorFreeCells (gridSize : Nat) (snakeSegments : List SnakeSegment) : List Position :=
  (List.range gridSize).flatMap fun (y : Nat) =>
    (List.range gridSize).filterMap fun (x : Nat) =>
      if ({ x := (x : Int), y := (y : Int) } : Position) ∈ snakeSegments.map (·.position) then
        none
      else some { x := (x : Int), y := (y : Int) }

/-- The head-flag invariant: the segment list is nonempty, its first
segment carries the head flag, and no later segment does. -/
def headFlagInvariant (s : Snake) : Prop :=
  s.segments ≠ [] ∧ (s.segments.headD default).isHead = true ∧
    ∀ seg ∈ s.segments.tail, seg.isHead = false

/-- The three snake-mutating operations reachable from the engine. -/
inductive SnakeOp
  | opMove
  | opGrow
  | opReset
deriving DecidableEq, Repr

/-- Apply one snake operation. -/
def applySnakeOp (s : Snake) : SnakeOp → Snake
  | .opMove => s.move
  | .opGrow => s.grow
  | .opReset => s.reset

/-- Apply a sequence of snake operations, first element first. -/
def applySnakeOps (s : Snake) (ops : List SnakeOp) : Snake :=
  ops.foldl applySnakeOp s

/-- A concrete configuration used by the witnesses: the 10-cell grid of
the unit tests with the default initial length 3. -/
def cfgDemo : GameConfig :=
  { gridSize := 10, initialSnakeLength := 3 }

/-- A concrete snake whose pending direction (UP) differs from its
current direction (RIGHT), reached from the initial snake by one
direction request. -/
def snakeDemoC5 : Snake :=
  (mkSnake cfgDemo).changeDirection Direction.UP

/-- A concrete playing engine about to hit the right wall: a 3-cell
grid, a single-segment snake at (2, 1) moving right, the food at
(0, 0). -/
def engDemoC1 : GameEngine :=
  { config := { gridSize := 3, initialSnakeLength := 1 }
    snake :=
      { config := { gridSize := 3, initialSnakeLength := 1 }
        segments := [{ position := { x := 2, y := 1 }, isHead := true }]
        direction := .RIGHT
        nextDirection := .RIGHT }
    food := mkFood { x := 0, y := 0 } .REGULAR
    gridSize := 3
    scoreManager :=
      { currentScore := 0, highScore := 0, snakeLength := 1, foodEaten := 0,
        gameTime := 0, gameStartTime := 0, savedHighScore := none }
    gameState := .PLAYING
    lastUpdateTime := 0
    animationFrameId := none
    events := [] }

/-- A concrete playing engine used by the pause witness. -/
def engDemoC8 : GameEngine :=
  { config := cfgDemo
    snake := mkSnake cfgDemo
    food := mkFood { x := 0, y := 0 } FoodType.REGULAR
    gridSize := 10
    scoreManager :=
      { currentScore := 0, highScore := 0, snakeLength := 3, foodEaten := 0,
        gameTime := 0, gameStartTime := 0, savedHighScore := none }
    gameState := .PLAYING
    lastUpdateTime := 0
    animationFrameId := none
    events := [] }

/-- A concrete score manager with a nonzero high score, used by the
score witness. -/
def smDemo : ScoreManager :=
  { currentScore := 0, highScore := 12, snakeLength := 3, foodEaten := 0,
    gameTime := 0, gameStartTime := 0, savedHighScore := some 12 }

/-- The computed new head is the old head translated by the unit offset
of the applied direction. -/
theorem calculateNewHeadPosition_eq_add (direction : Direction) (p : Position) :
    calculateNewHeadPosition direction p = p.add direction.unitOffset := by
  cases direction <;>
    simp [calculateNewHeadPosition, Position.add, Direction.unitOffset, Position.mk.injEq,
      Int.sub_eq_add_neg]

/-- Move on a single-segment snake: only the translated head remains. -/
theorem Snake.move_segments_single (s : Snake) (a : SnakeSegment) (hs : s.segments = [a]) :
    (s.move).segments =
      [{ position := calculateNewHeadPosition s.nextDirection a.position, isHead := true }] := by
  simp [Snake.move, hs]

/-- Move on a snake of length at least two: translated head, the old
head with the flag cleared, then the old middle. -/
theorem Snake.move_segments_cons (s : Snake) (a b : SnakeSegment) (t : List SnakeSegment)
    (hs : s.segments = a :: b :: t) :
    (s.move).segments =
      { position := calculateNewHeadPosition s.nextDirection a.position, isHead := true }
        :: { a with isHead := false } :: (b :: t).dropLast := by
  simp [Snake.move, hs]

/-- Move applies the pending direction as the current one. -/
theorem Snake.move_direction (s : Snake) (hne : s.segments ≠ []) :
    (s.move).direction = s.nextDirection := by
  cases hs : s.segments with
  | nil => exact absurd hs hne
  | cons a t => simp [Snake.move, hs]

/-- Move keeps the pending direction. -/
theorem Snake.move_nextDirection (s : Snake) : (s.move).nextDirection = s.nextDirection := by
  cases hs : s.segments <;> simp [Snake.move, hs]

/-- Move keeps the configuration. -/
theorem Snake.move_config (s : Snake) : (s.move).config = s.config := by
  cases hs : s.segments <;> simp [Snake.move, hs]

/-- Move keeps the number of segments. -/
theorem Snake.move_length (s : Snake) : (s.move).segments.length = s.segments.length := by
  rcases hs : s.segments with _ | ⟨a, _ | ⟨b, t⟩⟩
  · simp [Snake.move, hs]
  · rw [Snake.move_segments_single s a hs]
    simp
  · rw [Snake.move_segments_cons s a b t hs]
    simp

/-- Grow adds exactly one segment to a nonempty snake. -/
theorem Snake.grow_length (s : Snake) (hne : s.segments ≠ []) :
    (s.grow).segments.length = s.segments.length + 1 := by
  cases hl : s.segments.getLast? with
  | none => exact absurd (List.getLast?_eq_none_iff.mp hl) hne
  | some tail => simp [Snake.grow, hl]

/-- Grow keeps the configuration. -/
theorem Snake.grow_config (s : Snake) : (s.grow).config = s.config := by
  cases hl : s.segments.getLast? <;> simp [Snake.grow, hl]

/-- The head after a move is the old head translated by the unit offset
of the pending direction. -/
theorem Snake.move_getHeadPosition (s : Snake) (a : SnakeSegment) (t : List SnakeSegment)
    (hs : s.segments = a :: t) :
    (s.move).getHeadPosition = a.position.add s.nextDirection.unitOffset := by
  cases t with
  | nil =>
    rw [Snake.getHeadPosition, Snake.move_segments_single s a hs]
    simp [calculateNewHeadPosition_eq_add]
  | cons b t' =>
    rw [Snake.getHeadPosition, Snake.move_segments_cons s a b t' hs]
    simp [calculateNewHeadPosition_eq_add]

/-- Claim C4: for every entity with at least one segment, advance sets
the current direction to the pending direction, the new head is the old
head translated by exactly the unit offset of that direction
(Up = (0,-1), Down = (0,+1), Left = (-1,0), Right = (+1,0)), and the
length is unchanged. -/
theorem spec2proof_C4 (s : Snake) (a : SnakeSegment) (t : List SnakeSegment)
    (hs : s.segments = a :: t) :
    (s.move).direction = s.nextDirection ∧
    (s.move).getHeadPosition = a.position.add s.nextDirection.unitOffset ∧
    (s.move).segments.length = s.segments.length :=
  ⟨Snake.move_direction s (by simp [hs]), Snake.move_getHeadPosition s a t hs,
    Snake.move_length s⟩

/-- Witness for C4 at the initial demo snake. -/
theorem spec2proof_C4_witness :
    (mkSnake cfgDemo).segments =
      ({ position := { x := 5, y := 5 }, isHead := true } : SnakeSegment) ::
        [{ position := { x := 4, y := 5 }, isHead := false },
         { position := { x := 3, y := 5 }, isHead := false }] ∧
    (((mkSnake cfgDemo).move).direction = (mkSnake cfgDemo).nextDirection ∧
      ((mkSnake cfgDemo).move).getHeadPosition =
        Position.add { x := 5, y := 5 } (mkSnake cfgDemo).nextDirection.unitOffset ∧
      ((mkSnake cfgDemo).move).segments.length = (mkSnake cfgDemo).segments.length) :=
  ⟨by decide,
    spec2proof_C4 (mkSnake cfgDemo) { position := { x := 5, y := 5 }, isHead := true }
      [{ position := { x := 4, y := 5 }, isHead := false },
       { position := { x := 3, y := 5 }, isHead := false }] (by decide)⟩

/-- Counterexample to C5 as stated: with current direction RIGHT and
pending direction UP, the request LEFT (opposite of the current
direction) is dropped, yet the following advance moves the head UP,
not in the current direction RIGHT. -/
theorem spec2proof_C5_cex :
    (snakeDemoC5.changeDirection Direction.LEFT).nextDirection = snakeDemoC5.nextDirection ∧
    ((snakeDemoC5.changeDirection Direction.LEFT).move).direction ≠ snakeDemoC5.direction ∧
    ((snakeDemoC5.changeDirection Direction.LEFT).move).getHeadPosition ≠
      snakeDemoC5.getHeadPosition.add snakeDemoC5.direction.unitOffset := by
  decide

/-- Claim C5 (amended): a request opposite to the current direction
never changes the pending direction, any non-opposite request updates
the pending direction, and when the pending direction equals the
current one the advance following an opposite request still moves in
the current direction. -/
theorem spec2proof_C5 (s : Snake) (d : Direction) :
    (s.isOppositeDirection d = true → s.changeDirection d = s) ∧
    (s.isOppositeDirection d = false → (s.changeDirection d).nextDirection = d) ∧
    (s.nextDirection = s.direction → s.segments ≠ [] →
      ((s.changeDirection s.direction.opposite).move).direction = s.direction ∧
      ((s.changeDirection s.direction.opposite).move).getHeadPosition =
        s.getHeadPosition.add s.direction.unitOffset) := by
  refine ⟨fun hopp => ?_, fun hnopp => ?_, fun hpend hne => ?_⟩
  · simp [Snake.changeDirection, hopp]
  · simp [Snake.changeDirection, hnopp]
  · have hdrop : s.changeDirection s.direction.opposite = s := by
      simp [Snake.changeDirection, Snake.isOppositeDirection]
    rw [hdrop]
    obtain ⟨a, t, hs⟩ : ∃ a t, s.segments = a :: t := by
      cases hq : s.segments with
      | nil => exact absurd hq hne
      | cons a t => exact ⟨a, t, rfl⟩
    refine ⟨by rw [Snake.move_direction s hne, hpend], ?_⟩
    rw [Snake.move_getHeadPosition s a t hs, hpend, Snake.getHeadPosition, hs]
    rfl

/-- Witness for C5 at the initial demo snake with the dropped request
LEFT. -/
theorem spec2proof_C5_witness :
    ((mkSnake cfgDemo).changeDirection (mkSnake cfgDemo).direction.opposite).move.direction =
      (mkSnake cfgDemo).direction ∧
    ((mkSnake cfgDemo).changeDirection (mkSnake cfgDemo).direction.opposite).move.getHeadPosition =
      (mkSnake cfgDemo).getHeadPosition.add (mkSnake cfgDemo).direction.unitOffset :=
  (spec2proof_C5 (mkSnake cfgDemo) Direction.LEFT).2.2 (by decide) (by decide)

/-- Claim C6: growing once and then advancing increases the length by
exactly one, and any number of advances without growth preserves the
length. -/
theorem spec2proof_C6 (s : Snake) (hne : s.segments ≠ []) :
    ((s.grow).move).segments.length = s.segments.length + 1 ∧
    ∀ n : Nat, (Snake.move^[n] s).segments.length = s.segments.length := by
  constructor
  · rw [Snake.move_length, Snake.grow_length s hne]
  · intro n
    induction n with
    | zero => rfl
    | succ k ih => rw [Function.iterate_succ_apply', Snake.move_length, ih]

/-- Witness for C6 at the initial demo snake. -/
theorem spec2proof_C6_witness :
    (mkSnake cfgDemo).segments ≠ [] ∧
    ((((mkSnake cfgDemo).grow).move).segments.length = (mkSnake cfgDemo).segments.length + 1 ∧
      ∀ n : Nat,
        (Snake.move^[n] (mkSnake cfgDemo)).segments.length = (mkSnake cfgDemo).segments.length) :=
  ⟨by decide, spec2proof_C6 _ (by decide)⟩

/-- Claim C7: awarding points adds them to the current score and raises
the high score exactly to the maximum of the new current score and the
old high score; from a zero current score, awarding 10 then 5 yields
current score 15 and high score max 15 the old high score; reset zeroes
the current score and the session counters (items consumed, elapsed
time) and restores the initial recorded length while never touching the
high score. -/
theorem spec2proof_C7 (m : ScoreManager) (points : Int) :
    ((m.addPoints points).currentScore = m.currentScore + points ∧
      (m.addPoints points).highScore = max (m.currentScore + points) m.highScore) ∧
    (m.currentScore = 0 →
      ((m.addPoints 10).addPoints 5).currentScore = 15 ∧
      ((m.addPoints 10).addPoints 5).highScore = max 15 m.highScore) ∧
    (m.resetScore.currentScore = 0 ∧ m.resetScore.foodEaten = 0 ∧
      m.resetScore.gameTime = 0 ∧ m.resetScore.gameStartTime = 0 ∧
      m.resetScore.snakeLength = 3 ∧ m.resetScore.highScore = m.highScore) := by
  have hadd : ∀ (m' : ScoreManager) (p : Int),
      (m'.addPoints p).currentScore = m'.currentScore + p ∧
        (m'.addPoints p).highScore = max (m'.currentScore + p) m'.highScore := by
    intro m' p
    unfold ScoreManager.addPoints ScoreManager.updateHighScore
    dsimp only
    split
    · constructor
      · rfl
      · simp only [max_eq_left_iff]
        omega
    · constructor
      · rfl
      · simp only [max_eq_right_iff]
        omega
  refine ⟨hadd m points, fun hzero => ?_, by simp [ScoreManager.resetScore]⟩
  obtain ⟨hc1, hh1⟩ := hadd m 10
  obtain ⟨hc2, hh2⟩ := hadd (m.addPoints 10) 5
  rw [hc2, hc1, hzero, hh2, hc1, hh1, hzero]
  constructor
  · norm_num
  · simp only [zero_add]
    omega

/-- Witness for C7 at a score manager with current score 0 and high
score 12. -/
theorem spec2proof_C7_witness :
    smDemo.currentScore = 0 ∧
    (((smDemo.addPoints 10).addPoints 5).currentScore = 15 ∧
      ((smDemo.addPoints 10).addPoints 5).highScore = max 15 smDemo.highScore) :=
  ⟨by decide, (spec2proof_C7 smDemo 0).2.1 (by decide)⟩

/-- Claim C8: pause moves a playing engine to PAUSED and emits one
pause notification; from any other state it is the identity; hence
pausing twice equals pausing once, with no second notification. -/
theorem spec2proof_C8 (e : GameEngine) :
    (e.gameState = GameState.PLAYING →
      (e.pause).gameState = GameState.PAUSED ∧
        (e.pause).events = e.events ++ [GameEvent.gamePause]) ∧
    (e.gameState ≠ GameState.PLAYING → e.pause = e) ∧
    e.pause.pause = e.pause := by
  have hnotp : ∀ e' : GameEngine, e'.gameState ≠ GameState.PLAYING → e'.pause = e' := by
    intro e' h
    simp [GameEngine.pause, h]
  have hp : ∀ e' : GameEngine, e'.gameState = GameState.PLAYING →
      e'.pause = GameEngine.emit { e' with gameState := GameState.PAUSED } .gamePause := by
    intro e' h
    simp [GameEngine.pause, h]
  refine ⟨fun hplay => ?_, hnotp e, ?_⟩
  · rw [hp e hplay]
    simp [GameEngine.emit]
  · by_cases hplay : e.gameState = GameState.PLAYING
    · refine hnotp e.pause ?_
      rw [hp e hplay]
      simp [GameEngine.emit]
    · rw [hnotp e hplay, hnotp e hplay]

/-- Witness for C8 at a concrete playing engine. -/
theorem spec2proof_C8_witness :
    engDemoC8.pause.gameState = GameState.PAUSED ∧
      engDemoC8.pause.events = engDemoC8.events ++ [GameEvent.gamePause] :=
  (spec2proof_C8 engDemoC8).1 (by decide)

/-- Claim C10: stop forces the MENU state and leaves every other
observable component untouched: the snake (segments and directions),
the food (position and type), all score data, the configuration, the
board and the emitted events. -/
theorem spec2proof_C10 (e : GameEngine) :
    (e.stop).gameState = GameState.MENU ∧
    (e.stop).snake = e.snake ∧
    (e.stop).food = e.food ∧
    (e.stop).scoreManager = e.scoreManager ∧
    (e.stop).config = e.config ∧
    (e.stop).gridSize = e.gridSize ∧
    (e.stop).events = e.events := by
  simp [GameEngine.stop]

/-- Claim C2: respawn signals an error exactly when the free-cell list
is empty; on any nonempty list it succeeds with a position taken from
the list, so when the list excludes every entity cell the new position
coincides with no entity segment. -/
theorem spec2proof_C2 (food : Food) (availablePositions : List Position) (randomIndex : Nat)
    (segs : List SnakeSegment) :
    ((∃ msg, food.respawn availablePositions randomIndex = .error msg) ↔
      availablePositions = []) ∧
    (∀ f, food.respawn availablePositions randomIndex = .ok f →
      f.position ∈ availablePositions) ∧
    (availablePositions ≠ [] →
      ∃ f, food.respawn availablePositions randomIndex = .ok f) ∧
    ((∀ q ∈ availablePositions, q ∉ segs.map (·.position)) →
      ∀ f, food.respawn availablePositions randomIndex = .ok f →
        f.position ∉ segs.map (·.position)) := by
  by_cases hemp : availablePositions.length = 0
  · have hnil : availablePositions = [] := List.length_eq_zero.mp hemp
    refine ⟨⟨fun _ => hnil, fun _ => ⟨ "No available positions for food spawn", ?_⟩⟩,
      fun f hf => ?_, fun hne => absurd hnil hne, fun _ f hf => ?_⟩
    · simp [Food.respawn, hemp]
    · simp [Food.respawn, hemp] at hf
    · simp [Food.respawn, hemp] at hf
  · have hposlen : 0 < availablePositions.length := Nat.pos_of_ne_zero hemp
    have hlt : randomIndex % availablePositions.length < availablePositions.length :=
      Nat.mod_lt _ hposlen
    have hok : food.respawn availablePositions randomIndex =
        .ok { food with
              position :=
                availablePositions.getD (randomIndex % availablePositions.length) default } := by
      simp [Food.respawn, hemp]
    have hmem :
        availablePositions.getD (randomIndex % availablePositions.length) default ∈
          availablePositions := by
      rw [List.getD_eq_getElem availablePositions default hlt]
      exact List.getElem_mem hlt
    refine ⟨⟨?_, ?_⟩, fun f hf => ?_, fun _ => ⟨_, hok⟩, fun hfree f hf => ?_⟩
    · rintro ⟨msg, hmsg⟩
      rw [hok] at hmsg
      cases hmsg
    · intro h
      rw [h] at hposlen
      simp at hposlen
    · rw [hok] at hf
      cases hf
      exact hmem
    · rw [hok] at hf
      cases hf
      exact hfree _ hmem

/-- Witness for C2 on a two-cell free list disjoint from a one-segment
entity. -/
theorem spec2proof_C2_witness :
    ([{ x := 1, y := 1 }, { x := 2, y := 2 }] : List Position) ≠ [] ∧
    (∃ f, (mkFood { x := 0, y := 0 } FoodType.REGULAR).respawn
        [{ x := 1, y := 1 }, { x := 2, y := 2 }] 5 = Except.ok f) :=
  ⟨by decide,
    (spec2proof_C2 (mkFood { x := 0, y := 0 } FoodType.REGULAR)
        [{ x := 1, y := 1 }, { x := 2, y := 2 }] 5
        [{ position := { x := 0, y := 0 }, isHead := true }]).2.2.1 (by decide)⟩

/-- A value delivered by the guarded some-branch of the cell filter is
the guarded cell itself. -/
theorem cellOption_eq {α : Type} (c : Prop) [Decidable c] (v b : α)
    (h : (if c then none else some v) = some b) : b = v := by
  by_cases hc : c
  · rw [if_pos hc] at h
    cases h
  · rw [if_neg hc] at h
    cases h
    rfl

/-- The guard of a delivered cell is false: the cell was not occupied. -/
theorem cellOption_not {α : Type} (c : Prop) [Decidable c] (v b : α)
    (h : (if c then none else some v) = some b) : ¬c := by
  intro hc
  rw [if_pos hc] at h
  cases h

/-- Membership in the empty-cell enumeration: exactly the in-grid cells
whose position is not occupied by a segment. -/
theorem mem_getEmptyPositionsExcludingSnake (gridSize : Nat) (segs : List SnakeSegment)
    (p : Position) :
    p ∈ getEmptyPositionsExcludingSnake gridSize segs ↔
      (0 ≤ p.x ∧ p.x < (gridSize : Int) ∧ 0 ≤ p.y ∧ p.y < (gridSize : Int) ∧
        p ∉ segs.map (·.position)) := by
  unfold getEmptyPositionsExcludingSnake
  constructor
  · intro hp
    rw [List.mem_flatMap] at hp
    obtain ⟨x, hxmem, hp⟩ := hp
    rw [List.mem_filterMap] at hp
    obtain ⟨y, hymem, hsome⟩ := hp
    rw [List.mem_range] at hxmem hymem
    have hbp := cellOption_eq _ _ _ hsome
    have hnotc := cellOption_not _ _ _ hsome
    subst hbp
    exact ⟨Int.ofNat_nonneg x, Int.ofNat_lt.mpr hxmem, Int.ofNat_nonneg y,
      Int.ofNat_lt.mpr hymem, hnotc⟩
  · rintro ⟨hx0, hxN, hy0, hyN, hnot⟩
    rw [List.mem_flatMap]
    refine ⟨p.x.toNat, ?_, ?_⟩
    · rw [List.mem_range]
      omega
    · rw [List.mem_filterMap]
      refine ⟨p.y.toNat, ?_, ?_⟩
      · rw [List.mem_range]
        omega
      · have hpp : ({ x := (p.x.toNat : Int), y := (p.y.toNat : Int) } : Position) = p := by
          rw [Int.toNat_of_nonneg hx0, Int.toNat_of_nonneg hy0]
        rw [hpp, if_neg hnot]

/-- The empty-cell enumeration is emitted in strictly increasing
column-major (x-outer) lexicographic order. -/
theorem pairwise_getEmptyPositionsExcludingSnake (gridSize : Nat) (segs : List SnakeSegment) :
    (getEmptyPositionsExcludingSnake gridSize segs).Pairwise posColLex := by
  unfold getEmptyPositionsExcludingSnake
  rw [List.pairwise_flatMap]
  constructor
  · intro x hx
    rw [List.pairwise_filterMap]
    refine (List.pairwise_lt_range gridSize).imp ?_
    intro y y' hyy b hb b' hb'
    rw [Option.mem_def] at hb hb'
    have hbv := cellOption_eq _ _ _ hb
    have hbv' := cellOption_eq _ _ _ hb'
    subst hbv hbv'
    exact Or.inr ⟨rfl, Int.ofNat_lt.mpr hyy⟩
  · refine (List.pairwise_lt_range gridSize).imp ?_
    intro x x' hxx b hb b' hb'
    rw [List.mem_filterMap] at hb hb'
    obtain ⟨y, hy, hby⟩ := hb
    obtain ⟨y', hy', hby'⟩ := hb'
    have hbv := cellOption_eq _ _ _ hby
    have hbv' := cellOption_eq _ _ _ hby'
    subst hbv hbv'
    exact Or.inl (Int.ofNat_lt.mpr hxx)

/-- Two positions in the strict column-major order are distinct. -/
theorem posColLex_ne (p q : Position) (h : posColLex p q) : p ≠ q := by
  intro heq
  subst heq
  rcases h with h1 | ⟨_, h2⟩
  · exact lt_irrefl _ h1
  · exact lt_irrefl _ h2

/-- Counterexample to C3 as stated: on the empty 2-by-2 board the
enumeration yields (0,0), (0,1), (1,0), (1,1) — column-major — while a
row-major listing of the same free cells yields (0,0), (1,0), (0,1),
(1,1); they already differ at index 1. -/
theorem spec2proof_C3_cex :
    getEmptyPositionsExcludingSnake 2 [] ≠ rowMajorFreeCells 2 [] ∧
    (getEmptyPositionsExcludingSnake 2 [])[1]? = some { x := 0, y := 1 } ∧
    (rowMajorFreeCells 2 [])[1]? = some { x := 1, y := 0 } := by
  decide

/-- Claim C3 (amended): for every positive grid size and occupied
segment list, the enumeration contains exactly the grid cells whose
position is not occupied, each exactly once, listed in strictly
increasing column-major order (outer coordinate x, inner y) — not the
row-major order the claim states. -/
theorem spec2proof_C3 (gridSize : Nat) (segs : List SnakeSegment) (hpos : 0 < gridSize) :
    (∀ p : Position, p ∈ getEmptyPositionsExcludingSnake gridSize segs ↔
      (0 ≤ p.x ∧ p.x < (gridSize : Int) ∧ 0 ≤ p.y ∧ p.y < (gridSize : Int) ∧
        p ∉ segs.map (·.position))) ∧
    (getEmptyPositionsExcludingSnake gridSize segs).Pairwise posColLex ∧
    (getEmptyPositionsExcludingSnake gridSize segs).Nodup :=
  ⟨mem_getEmptyPositionsExcludingSnake gridSize segs,
    pairwise_getEmptyPositionsExcludingSnake gridSize segs,
    (pairwise_getEmptyPositionsExcludingSnake gridSize segs).imp
      fun {a b} h => posColLex_ne a b h⟩

/-- Witness for C3 at the 2-by-2 board with one occupied cell. -/
theorem spec2proof_C3_witness :
    0 < 2 ∧
    ((∀ p : Position,
        p ∈ getEmptyPositionsExcludingSnake 2 [{ position := { x := 0, y := 0 }, isHead := true }] ↔
          (0 ≤ p.x ∧ p.x < (2 : Int) ∧ 0 ≤ p.y ∧ p.y < (2 : Int) ∧
            p ∉ ([{ position := { x := 0, y := 0 }, isHead := true }] : List SnakeSegment).map
              (·.position))) ∧
      (getEmptyPositionsExcludingSnake 2
        [{ position := { x := 0, y := 0 }, isHead := true }]).Pairwise posColLex ∧
      (getEmptyPositionsExcludingSnake 2
        [{ position := { x := 0, y := 0 }, isHead := true }]).Nodup) :=
  ⟨by decide,
    spec2proof_C3 2 [{ position := { x := 0, y := 0 }, isHead := true }] (by decide)⟩

/-- The initial segment list is nonempty with the head flag exactly on
its first element, for any positive initial length. -/
theorem initialSegments_headFlag (config : GameConfig) (h : 0 < config.initialSnakeLength) :
    initialSegments config ≠ [] ∧
      ((initialSegments config).headD default).isHead = true ∧
      ∀ seg ∈ (initialSegments config).tail, seg.isHead = false := by
  obtain ⟨m, hm⟩ := Nat.exists_eq_succ_of_ne_zero h.ne'
  unfold initialSegments
  rw [hm, List.range_succ_eq_map]
  refine ⟨by simp, by simp, ?_⟩
  intro seg hseg
  simp only [List.map_cons, List.tail_cons, List.map_map, List.mem_map] at hseg
  obtain ⟨i, _, hseg⟩ := hseg
  rw [← hseg]
  simp [Function.comp]

/-- The freshly constructed snake satisfies the head-flag invariant. -/
theorem headFlagInvariant_mkSnake (config : GameConfig) (h : 0 < config.initialSnakeLength) :
    headFlagInvariant (mkSnake config) :=
  initialSegments_headFlag config h

/-- Moving preserves the head-flag invariant. -/
theorem headFlagInvariant_move (s : Snake) (h : headFlagInvariant s) :
    headFlagInvariant s.move := by
  obtain ⟨hne, hhead, htail⟩ := h
  obtain ⟨a, t, hs⟩ : ∃ a t, s.segments = a :: t := by
    cases hq : s.segments with
    | nil => exact absurd hq hne
    | cons a t => exact ⟨a, t, rfl⟩
  cases t with
  | nil =>
    have hm := Snake.move_segments_single s a hs
    unfold headFlagInvariant
    rw [hm]
    simp
  | cons b t' =>
    have hm := Snake.move_segments_cons s a b t' hs
    unfold headFlagInvariant
    rw [hm]
    refine ⟨by simp, by simp, ?_⟩
    intro seg hseg
    simp only [List.tail_cons] at hseg
    rcases List.mem_cons.mp hseg with h1 | h2
    · rw [h1]
    · have hmem : seg ∈ b :: t' := (List.dropLast_sublist (b :: t')).subset h2
      refine htail seg ?_
      rw [hs]
      exact hmem

/-- Growing preserves the head-flag invariant. -/
theorem headFlagInvariant_grow (s : Snake) (h : headFlagInvariant s) :
    headFlagInvariant s.grow := by
  obtain ⟨hne, hhead, htail⟩ := h
  obtain ⟨a, t, hs⟩ : ∃ a t, s.segments = a :: t := by
    cases hq : s.segments with
    | nil => exact absurd hq hne
    | cons a t => exact ⟨a, t, rfl⟩
  cases hl : s.segments.getLast? with
  | none => exact absurd (List.getLast?_eq_none_iff.mp hl) hne
  | some tl =>
    unfold headFlagInvariant Snake.grow
    rw [hl]
    dsimp only
    rw [hs]
    refine ⟨by simp, ?_, ?_⟩
    · rw [hs] at hhead
      simpa using hhead
    · intro seg hseg
      simp only [List.cons_append, List.tail_cons] at hseg
      rcases List.mem_append.mp hseg with h1 | h2
      · refine htail seg ?_
        rw [hs]
        simpa using h1
      · rw [List.mem_singleton.mp h2]

/-- Resetting restores the head-flag invariant. -/
theorem headFlagInvariant_reset (s : Snake) (h : 0 < s.config.initialSnakeLength) :
    headFlagInvariant s.reset :=
  initialSegments_headFlag s.config h

/-- Each snake operation keeps the configuration. -/
theorem applySnakeOp_config (s : Snake) (op : SnakeOp) : (applySnakeOp s op).config = s.config := by
  cases op
  · exact Snake.move_config s
  · exact Snake.grow_config s
  · rfl

/-- Claim C9: starting from the constructed snake, after any sequence
of move, grow and reset operations exactly the first segment carries
the head flag and every other segment does not (stated for positive
configured initial length, as the constructor guarantees at least one
segment). -/
theorem spec2proof_C9 (config : GameConfig) (ops : List SnakeOp)
    (hpos : 0 < config.initialSnakeLength) :
    headFlagInvariant (applySnakeOps (mkSnake config) ops) := by
  have key : ∀ (l : List SnakeOp) (s : Snake), s.config = config → headFlagInvariant s →
      headFlagInvariant (applySnakeOps s l) := by
    intro l
    induction l with
    | nil => exact fun s _ hi => hi
    | cons op rest ih =>
      intro s hc hi
      have hc' : (applySnakeOp s op).config = config := by
        rw [applySnakeOp_config]
        exact hc
      have hi' : headFlagInvariant (applySnakeOp s op) := by
        cases op
        · exact headFlagInvariant_move s hi
        · exact headFlagInvariant_grow s hi
        · exact headFlagInvariant_reset s (by rw [hc]; exact hpos)
      exact ih (applySnakeOp s op) hc' hi'
  exact key ops (mkSnake config) rfl (headFlagInvariant_mkSnake config hpos)

/-- Witness for C9 on a five-operation sequence from the demo
configuration. -/
theorem spec2proof_C9_witness :
    0 < cfgDemo.initialSnakeLength ∧
      headFlagInvariant (applySnakeOps (mkSnake cfgDemo)
        [SnakeOp.opMove, SnakeOp.opGrow, SnakeOp.opMove, SnakeOp.opReset, SnakeOp.opGrow]) :=
  ⟨by decide,
    spec2proof_C9 cfgDemo
      [SnakeOp.opMove, SnakeOp.opGrow, SnakeOp.opMove, SnakeOp.opReset, SnakeOp.opGrow]
      (by decide)⟩

/-- When the advanced snake self-collides, its new head position lies on
one of the segments it occupied before the advance. -/
theorem move_selfCollision_head_mem (s : Snake) (a : SnakeSegment) (t : List SnakeSegment)
    (hs : s.segments = a :: t) (hcol : (s.move).hasSelfCollision = true) :
    (s.move).getHeadPosition ∈ s.segments.map (·.position) := by
  cases t with
  | nil =>
    have hm := Snake.move_segments_single s a hs
    simp [Snake.hasSelfCollision, hm] at hcol
  | cons b t' =>
    have hm := Snake.move_segments_cons s a b t' hs
    simp only [Snake.hasSelfCollision, hm, List.any_eq_true] at hcol
    obtain ⟨seg, hseg, heq⟩ := hcol
    have hpe : seg.position = (s.move).getHeadPosition := by
      rw [Snake.getHeadPosition, hm]
      exact beq_iff_eq.mp heq
    rw [← hpe, hs]
    rcases List.mem_cons.mp hseg with h1 | h2
    · rw [h1]
      exact List.mem_map.mpr ⟨a, List.mem_cons_self a (b :: t'), rfl⟩
    · have hmem : seg ∈ b :: t' := (List.dropLast_sublist (b :: t')).subset h2
      exact List.mem_map.mpr ⟨seg, List.mem_cons_of_mem a hmem, rfl⟩

/-- The timer refresh never touches the current score. -/
theorem ScoreManager.updateTimer_currentScore (m : ScoreManager) (now : Int) :
    (m.updateTimer now).currentScore = m.currentScore := by
  unfold ScoreManager.updateTimer
  split <;> rfl

/-- The timer refresh never touches the food counter. -/
theorem ScoreManager.updateTimer_foodEaten (m : ScoreManager) (now : Int) :
    (m.updateTimer now).foodEaten = m.foodEaten := by
  unfold ScoreManager.updateTimer
  split <;> rfl

/-- Claim C1: on a playing engine whose food satisfies the spawn
invariant (in bounds and on no snake segment), a tick whose advance
produces a wall or self collision ends in the GAME_OVER state, and none
of the food-consumption effects happen on that tick: the snake is
exactly the advanced snake (no growth), the food is unchanged (no
respawn) and the score keeps its current value and items-consumed
count. -/
theorem spec2proof_C1 (e : GameEngine) (now : Int) (randomIndex : Nat) (special : Bool)
    (hplay : e.gameState = GameState.PLAYING)
    (hne : e.snake.segments ≠ [])
    (hfoodIn : isOutOfBounds e.gridSize e.food.position = false)
    (hfoodOff : e.food.position ∉ e.snake.segments.map (·.position))
    (hcol : isOutOfBounds e.gridSize (e.snake.move).getHeadPosition = true ∨
      (e.snake.move).hasSelfCollision = true) :
    (e.update now randomIndex special).gameState = GameState.GAME_OVER ∧
    (e.update now randomIndex special).snake = e.snake.move ∧
    (e.update now randomIndex special).food = e.food ∧
    (e.update now randomIndex special).scoreManager.currentScore =
      e.scoreManager.currentScore ∧
    (e.update now randomIndex special).scoreManager.foodEaten = e.scoreManager.foodEaten := by
  have hnef : (e.snake.move).getHeadPosition ≠ e.food.position := by
    rcases hcol with hout | hself
    · intro heq
      rw [heq, hfoodIn] at hout
      cases hout
    · intro heq
      obtain ⟨a, t, hs⟩ : ∃ a t, e.snake.segments = a :: t := by
        cases hq : e.snake.segments with
        | nil => exact absurd hq hne
        | cons a t => exact ⟨a, t, rfl⟩
      have hmem := move_selfCollision_head_mem e.snake a t hs hself
      rw [heq] at hmem
      exact hfoodOff hmem
  have hcolb : (isOutOfBounds e.gridSize (e.snake.move).getHeadPosition ||
      (e.snake.move).hasSelfCollision) = true := by
    rcases hcol with h | h <;> simp [h]
  have hneb : ((e.snake.move).getHeadPosition == e.food.position) = false :=
    beq_eq_false_iff_ne.mpr hnef
  refine ⟨?_, ?_, ?_, ?_, ?_⟩ <;>
    simp [GameEngine.update, hplay, GameEngine.checkCollisions, hcolb, GameEngine.gameOver,
      GameEngine.emit, GameEngine.checkFoodConsumption, hneb, GameEngine.updateScore,
      ScoreManager.updateTimer_currentScore, ScoreManager.updateTimer_foodEaten,
      ScoreManager.updateSnakeLength, ScoreManager.saveHighScore]

/-- Witness for C1: a single-segment snake at (2,1) on the 3-by-3 board
moving right hits the wall while the food sits at (0,0). -/
theorem spec2proof_C1_witness :
    engDemoC1.gameState = GameState.PLAYING ∧
    ((engDemoC1.update 0 0 false).gameState = GameState.GAME_OVER ∧
      (engDemoC1.update 0 0 false).snake = engDemoC1.snake.move ∧
      (engDemoC1.update 0 0 false).food = engDemoC1.food ∧
      (engDemoC1.update 0 0 false).scoreManager.currentScore =
        engDemoC1.scoreManager.currentScore ∧
      (engDemoC1.update 0 0 false).scoreManager.foodEaten =
        engDemoC1.scoreManager.foodEaten) :=
  ⟨by decide,
    spec2proof_C1 engDemoC1 0 0 false (by decide) (by decide) (by decide) (by decide)
      (by decide)⟩

end SnakeGame
